import Mathlib

/-!
Shallow embedding of two MediaCore source files:
  * mediacore/controllers/podcastadmin.py (PodcastadminController: edit, save, save_thumb)
  * mediacore/forms/admin/storage/ftp.py (FTPStorageForm: display, save_engine_params)

Python dictionaries are modelled as functions String to Option of a value type
(none meaning the key is absent, so indexing an absent key models a KeyError).
The ORM session, redirects and file-system effects are made explicit as
returned data.  External helpers that are repository code not under src
(get_available_slug, helpers.clean_admin_xhtml) are kept as parameters of the
embedding, so theorems quantify over them.
-/

namespace Mediacore

/-- Python values stored in the settings dictionaries of ftp.py: either None
or a string (the form fields there are all text fields). -/
inductive PyVal where
  | pyNone : PyVal
  | pyStr (s : String) : PyVal
deriving DecidableEq, Repr

/-- Python truthiness for the values of `PyVal`: `None` and the empty string
are falsy, every other string is truthy. -/
def truthy : PyVal → Bool
  | .pyNone => false
  | .pyStr s => s != ""

/-- The Python expression `x or None`: `x` if truthy, else `None`. -/
def orNone (v : PyVal) : PyVal :=
  if truthy v then v else .pyNone

/-- A Python dict with string keys: `none` means the key is absent. -/
def Dict : Type := String → Option PyVal

/-- The empty dict literal. -/
def emptyDict : Dict := fun _ => none

/-- Python `d[k] = v`. -/
def dictUpd (d : Dict) (k : String) (v : PyVal) : Dict :=
  fun k2 => if k2 = k then some v else d k2

/-- Python `d.get(k, None)`. -/
def dictGet (d : Dict) (k : String) : PyVal :=
  (d k).getD .pyNone

/-- Python `d.setdefault(k, v)`: store `v` under `k` only when `k` is absent
(the returned value of setdefault is the resulting entry; here we return the
updated dict, which is what the callers in ftp.py use). -/
def dictSetdefault (d : Dict) (k : String) (v : PyVal) : Dict :=
  match d k with
  | some _ => d
  | none => dictUpd d k v

namespace FTPStorageForm

/-- FTPStorageForm.display (ftp.py lines 41-47) restricted to its effect on
the form-value dict: `specifics = value.setdefault('specifics', {})` followed
by `specifics.setdefault('path', engine._data.get('path', None))` and
`specifics.setdefault('rtmp_server_uri', engine._data.get('rtmp_server_uri',
None))`.  The argument `specifics0` is the value dict's 'specifics' entry
(`none` when the key is absent, in which case setdefault installs an empty
dict); the result is the 'specifics' sub-dict after the two setdefault calls.
The parent call `StorageForm.display` renders the form and is outside src. -/
def display (engineData : Dict) (specifics0 : Option Dict) : Dict :=
  let s := specifics0.getD emptyDict
  let s1 := dictSetdefault s "path" (dictGet engineData "path")
  dictSetdefault s1 "rtmp_server_uri" (dictGet engineData "rtmp_server_uri")

/-- Result of `save_engine_params`: the engine's `_data` dict after the call,
and whether a `KeyError` was raised (indexing a missing `specifics` key). -/
structure SaveEngineResult where
  data : Dict
  raised : Bool

/-- FTPStorageForm.save_engine_params (ftp.py lines 64-65):
`engine._data['path'] = specifics['path'] or None` then
`engine._data['rtmp_server_uri'] = specifics['rtmp_server_uri'] or None`.
The two statements run in order, so if the second subscript raises, the first
write has already happened. -/
def save_engine_params (engineData : Dict) (specifics : Dict) : SaveEngineResult :=
  match specifics "path" with
  | none => ⟨engineData, true⟩
  | some p =>
    let d1 := dictUpd engineData "path" (orNone p)
    match specifics "rtmp_server_uri" with
    | none => ⟨d1, true⟩
    | some r => ⟨dictUpd d1 "rtmp_server_uri" (orNone r), false⟩

end FTPStorageForm

/-- The Author entity: `Author(author_name, author_email)` builds one from the
submitted name and email. -/
structure Author where
  name : String
  email : String
deriving DecidableEq, Repr

/-- The Podcast entity, with the columns touched by the controller.  `id` is
`none` until the row has been flushed; `explicit` is a nullable boolean. -/
structure Podcast where
  id : Option Nat
  slug : String
  title : String
  subtitle : String
  author : Option Author
  description : String
  copyright : String
  category : String
  itunes_url : String
  feedburner_url : String
  explicit : Option Bool
deriving DecidableEq, Repr

/-- The validated `details` field-set of the podcast form, as indexed by
`save` (podcastadmin.py lines 147-151). -/
structure PodcastDetails where
  explicit : String
  category : String
  copyright : String
  itunes_url : String
  feedburner_url : String
deriving DecidableEq, Repr

/-- The display mapping of the explicit flag in `edit` (podcastadmin.py line
98): the Python expression
`dict(yes=True, clean=False)` is not used there; the line is
`{True: 'yes', False: 'clean'}.get(podcast.explicit, 'no')`. -/
def explicit_display (e : Option Bool) : String :=
  match e with
  | some true => "yes"
  | some false => "clean"
  | none => "no"

/-- The parse mapping of the explicit flag in `save` (podcastadmin.py line
151): `{'yes': True, 'clean': False}.get(details['explicit'], None)`. -/
def explicit_parse (s : String) : Option Bool :=
  if s = "yes" then some true
  else if s = "clean" then some false
  else none

/-- Truthiness of the `delete` request parameter (default `None`, otherwise a
submitted string). -/
def strTruthy : Option String → Bool
  | none => false
  | some s => s != ""

/-- Where the controller redirects at the end of `save`. -/
inductive Redirect where
  | index : Redirect
  | editPage (id : Option Nat) : Redirect
deriving DecidableEq, Repr

/-- Observable outcome of `save`: the state of the fetched podcast object
after the call, whether its row was deleted from the session, whether it was
added, whether the session was flushed, and the redirect target. -/
structure SaveResult where
  podcast : Podcast
  deletedRow : Bool
  added : Bool
  flushed : Bool
  redirect : Redirect
deriving DecidableEq, Repr

/-- PodcastadminController.save (podcastadmin.py lines 135-155).  `p0` is the
row returned by `fetch_row(Podcast, id)`.  `get_available_slug` and
`helpers.clean_admin_xhtml` are repository helpers not under src, so they are
parameters: the source calls `get_available_slug(Podcast, slug, podcast)` and
`helpers.clean_admin_xhtml(description)`.  On a truthy `delete` the row is
deleted, the session flushed and the request redirected to `index`; `redirect`
raises, so none of the assignments below it run on that path. -/
def save (p0 : Podcast) (slug title subtitle author_name author_email description : String)
    (details : PodcastDetails) (delete : Option String)
    (get_available_slug : String → Podcast → String)
    (clean_admin_xhtml : String → String) : SaveResult :=
  if strTruthy delete then
    { podcast := p0, deletedRow := true, added := false, flushed := true,
      redirect := .index }
  else
    let p : Podcast :=
      { p0 with
        slug := get_available_slug slug p0,
        title := title,
        subtitle := subtitle,
        author := some ⟨author_name, author_email⟩,
        description := clean_admin_xhtml description,
        copyright := details.copyright,
        category := details.category,
        itunes_url := details.itunes_url,
        feedburner_url := details.feedburner_url,
        explicit := explicit_parse details.explicit }
    { podcast := p, deletedRow := false, added := true, flushed := true,
      redirect := .editPage p.id }

/-- A Python exception as observed by the two `except` clauses of
`save_thumb`: either an `IOError` or any other `Exception`, each carrying its
`.message` text. -/
inductive PyExc where
  | ioError (msg : String) : PyExc
  | otherExc (msg : String) : PyExc
deriving DecidableEq, Repr

/-- Outcomes of the three fallible I/O stages inside the `try` block of
`save_thumb`: `Image.open`, the resize-and-save loop, and the original-image
backup copy.  `none` means the stage succeeds, `some e` that it raises `e`. -/
structure ThumbWorld where
  openExc : Option PyExc
  thumbsExc : Option PyExc
  backupExc : Option PyExc
deriving DecidableEq, Repr

/-- The first exception the `try` block of `save_thumb` raises, if any: later
stages only run when the earlier ones succeeded. -/
def firstExc (w : ThumbWorld) : Option PyExc :=
  w.openExc <|> w.thumbsExc <|> w.backupExc

/-- The `id` request parameter of `save_thumb`: the literal string 'new' or an
integer row id. -/
inductive PodcastId where
  | newPodcast : PodcastId
  | existing (n : Nat) : PodcastId
deriving DecidableEq, Repr

/-- The local variables serialized at the end of `save_thumb`: `success`,
`message`, and `podcast.id` at serialization time (`none` when the row has no
assigned id yet). -/
structure ThumbResponse where
  success : Bool
  message : Option String
  podcastId : Option Nat
deriving DecidableEq, Repr

/-- Session side effects of `save_thumb`: whether the new stub was added to
the session and how many flushes happened. -/
structure ThumbEffects where
  stubAdded : Bool
  flushes : Nat
deriving DecidableEq, Repr

/-- The two `except` clauses of `save_thumb` (podcastadmin.py lines 225-230):
`except IOError` sets the message to 'Unsupported image type', the broad
`except Exception` surfaces `e.message` verbatim; both set `success = False`. -/
def handleThumbExc (e : PyExc) (pid : Option Nat) : ThumbResponse :=
  match e with
  | .ioError _ => ⟨false, some "Unsupported image type", pid⟩
  | .otherExc m => ⟨false, some m, pid⟩

/-- PodcastadminController.save_thumb (podcastadmin.py lines 195-237).  For
`id == 'new'` a stub with no id is created by `create_podcast_stub()`;
otherwise `fetch_row` yields the row with that id.  Inside the `try` block:
`Image.open`, then (only for 'new') `DBSession.add` and `DBSession.flush` —
the flush assigns the fresh id `freshId` — then the thumbnail loop, then the
backup copy.  Either `except` clause falls through to the JSON serialization
of `success`, `message` and `podcast.id`. -/
def save_thumb (id : PodcastId) (freshId : Nat) (w : ThumbWorld) :
    ThumbResponse × ThumbEffects :=
  let pid0 : Option Nat := match id with
    | .newPodcast => none
    | .existing n => some n
  match w.openExc with
  | some e => (handleThumbExc e pid0, ⟨false, 0⟩)
  | none =>
    let (pid, added, fl) : Option Nat × Bool × Nat := match id with
      | .newPodcast => (some freshId, true, 1)
      | .existing n => (some n, false, 0)
    match w.thumbsExc with
    | some e => (handleThumbExc e pid, ⟨added, fl⟩)
    | none =>
      match w.backupExc with
      | some e => (handleThumbExc e pid, ⟨added, fl⟩)
      | none => (⟨true, none, pid⟩, ⟨added, fl⟩)

/-- JSON values as produced by `json.dumps` on the dict built in
`save_thumb`. -/
inductive Json where
  | null : Json
  | bool (b : Bool) : Json
  | str (s : String) : Json
  | int (n : Nat) : Json
deriving DecidableEq, Repr

/-- Whether a JSON value is an integer. -/
def Json.isInt : Json → Bool
  | .int _ => true
  | _ => false

/-- The JSON body returned by `save_thumb` (podcastadmin.py lines 233-237):
`json.dumps(dict(success=success, message=message, id=podcast.id))`, i.e. an
object with exactly the keys `success`, `message` and `id`. -/
def thumbJson (r : ThumbResponse) : List (String × Json) :=
  [("success", .bool r.success),
   ("message", match r.message with | some m => .str m | none => .null),
   ("id", match r.podcastId with | some n => .int n | none => .null)]

/-- Both except clauses of save_thumb set `success = False`. -/
theorem handleThumbExc_success (e : PyExc) (pid : Option Nat) :
    (handleThumbExc e pid).success = false := by
  cases e <;> rfl

/-- Both except clauses of save_thumb leave `podcast.id` untouched. -/
theorem handleThumbExc_podcastId (e : PyExc) (pid : Option Nat) :
    (handleThumbExc e pid).podcastId = pid := by
  cases e <;> rfl

/-- Both except clauses of save_thumb set a non-null `message`. -/
theorem handleThumbExc_message_isSome (e : PyExc) (pid : Option Nat) :
    (handleThumbExc e pid).message.isSome = true := by
  cases e <;> rfl

/-- Both except clauses of save_thumb set a non-null `message` (iff form). -/
theorem handleThumbExc_message_none_iff (e : PyExc) (pid : Option Nat) :
    (handleThumbExc e pid).message = none ↔ False := by
  cases e <;> simp [handleThumbExc]

/-- C1: whenever processing the uploaded file raises an IOError (at any of
the fallible stages: decoding the image, writing the resized thumbs, or the
backup copy), the JSON body has success false and message exactly
'Unsupported image type'. -/
theorem save_thumb_ioError_message (id : PodcastId) (freshId : Nat)
    (w : ThumbWorld) (m : String) (h : firstExc w = some (.ioError m)) :
    (save_thumb id freshId w).1.success = false ∧
    (save_thumb id freshId w).1.message = some "Unsupported image type" := by
  obtain ⟨o, t, b⟩ := w
  cases o <;> cases t <;> cases b <;> cases id <;>
    simp_all [firstExc, Option.orElse, save_thumb, handleThumbExc]

/-- Witness for C1: a concrete upload whose decoding raises IOError. -/
theorem save_thumb_ioError_message_witness :
    firstExc ⟨some (.ioError "cannot identify image file"), none, none⟩
      = some (.ioError "cannot identify image file") ∧
    ((save_thumb .newPodcast 1
        ⟨some (.ioError "cannot identify image file"), none, none⟩).1.success = false ∧
     (save_thumb .newPodcast 1
        ⟨some (.ioError "cannot identify image file"), none, none⟩).1.message
        = some "Unsupported image type") :=
  ⟨rfl, save_thumb_ioError_message .newPodcast 1
    ⟨some (.ioError "cannot identify image file"), none, none⟩
    "cannot identify image file" rfl⟩

/-- C3: whenever processing raises an exception that is not an IOError, the
JSON body has success false and message equal to that exception's message
text, verbatim. -/
theorem save_thumb_other_exc_message (id : PodcastId) (freshId : Nat)
    (w : ThumbWorld) (m : String) (h : firstExc w = some (.otherExc m)) :
    (save_thumb id freshId w).1.success = false ∧
    (save_thumb id freshId w).1.message = some m := by
  obtain ⟨o, t, b⟩ := w
  cases o <;> cases t <;> cases b <;> cases id <;>
    simp_all [firstExc, Option.orElse, save_thumb, handleThumbExc]

/-- Witness for C3: a concrete upload whose thumbnail write raises a
non-IOError exception. -/
theorem save_thumb_other_exc_message_witness :
    firstExc ⟨none, some (.otherExc "thumb_sizes missing key"), none⟩
      = some (.otherExc "thumb_sizes missing key") ∧
    ((save_thumb (.existing 7) 1
        ⟨none, some (.otherExc "thumb_sizes missing key"), none⟩).1.success = false ∧
     (save_thumb (.existing 7) 1
        ⟨none, some (.otherExc "thumb_sizes missing key"), none⟩).1.message
        = some "thumb_sizes missing key") :=
  ⟨rfl, save_thumb_other_exc_message (.existing 7) 1
    ⟨none, some (.otherExc "thumb_sizes missing key"), none⟩
    "thumb_sizes missing key" rfl⟩

/-- C2 counterexample: for id 'new' with an undecodable upload, the JSON `id`
field is null, not an integer, refuting the claim that `id` is always an
integer. -/
theorem save_thumb_json_id_not_int :
    ((thumbJson (save_thumb .newPodcast 1
        ⟨some (.ioError "cannot identify image file"), none, none⟩).1).lookup
      "id").map Json.isInt = some false := by
  rfl

/-- C2 as amended: the JSON body has exactly the keys success, message and id
in that order; message is null exactly when success is true; and id is the
podcast's integer id except that it is null precisely when id was 'new' and
Image.open raised (so the stub was never flushed and has no id). -/
theorem save_thumb_json_shape (id : PodcastId) (freshId : Nat) (w : ThumbWorld) :
    (thumbJson (save_thumb id freshId w).1).map Prod.fst
      = ["success", "message", "id"] ∧
    ((save_thumb id freshId w).1.message = none ↔
      (save_thumb id freshId w).1.success = true) ∧
    ((save_thumb id freshId w).1.podcastId = none ↔
      (id = .newPodcast ∧ w.openExc.isSome = true)) := by
  obtain ⟨o, t, b⟩ := w
  refine ⟨rfl, ?_, ?_⟩ <;>
    cases o <;> cases t <;> cases b <;> cases id <;>
      simp [save_thumb, handleThumbExc_success, handleThumbExc_podcastId,
        handleThumbExc_message_none_iff]

/-- C9: for id 'new', if Image.open raises, the stub is never added to the
session, no flush occurs, and the JSON id field is null. -/
theorem save_thumb_new_atomic (freshId : Nat) (w : ThumbWorld) (e : PyExc)
    (h : w.openExc = some e) :
    (save_thumb .newPodcast freshId w).2.stubAdded = false ∧
    (save_thumb .newPodcast freshId w).2.flushes = 0 ∧
    (save_thumb .newPodcast freshId w).1.podcastId = none ∧
    (thumbJson (save_thumb .newPodcast freshId w).1).lookup "id"
      = some Json.null := by
  obtain ⟨o, t, b⟩ := w
  cases h
  cases e <;> exact ⟨rfl, rfl, rfl, rfl⟩

/-- Witness for C9: a concrete new-podcast upload whose decoding fails. -/
theorem save_thumb_new_atomic_witness :
    (⟨some (.ioError "bad bytes"), none, none⟩ : ThumbWorld).openExc
      = some (.ioError "bad bytes") ∧
    ((save_thumb .newPodcast 5
        ⟨some (.ioError "bad bytes"), none, none⟩).2.stubAdded = false ∧
     (save_thumb .newPodcast 5
        ⟨some (.ioError "bad bytes"), none, none⟩).2.flushes = 0 ∧
     (save_thumb .newPodcast 5
        ⟨some (.ioError "bad bytes"), none, none⟩).1.podcastId = none ∧
     (thumbJson (save_thumb .newPodcast 5
        ⟨some (.ioError "bad bytes"), none, none⟩).1).lookup "id"
        = some Json.null) :=
  ⟨rfl, save_thumb_new_atomic 5 ⟨some (.ioError "bad bytes"), none, none⟩
    (.ioError "bad bytes") rfl⟩

/-- C8: the explicit-flag mappings of `save` and `edit` are mutually inverse
between the stored values (Option Bool, i.e. True, False, None) and the form
choices 'yes', 'clean', 'no': displaying a stored flag and saving the
displayed choice returns the original flag, and saving a valid choice and
displaying the stored flag returns the original choice. -/
theorem explicit_mappings_inverse :
    (∀ e : Option Bool, explicit_parse (explicit_display e) = e) ∧
    (∀ s : String, s = "yes" ∨ s = "clean" ∨ s = "no" →
      explicit_display (explicit_parse s) = s) := by
  constructor
  · intro e
    cases e with
    | none => rfl
    | some b => cases b <;> rfl
  · rintro s (rfl | rfl | rfl) <;> rfl

/-- Witness for C8: both inverse directions at concrete values. -/
theorem explicit_mappings_inverse_witness :
    explicit_parse (explicit_display (some true)) = some true ∧
    (("no" : String) = "yes" ∨ ("no" : String) = "clean" ∨ ("no" : String) = "no") ∧
    explicit_display (explicit_parse "no") = "no" :=
  ⟨explicit_mappings_inverse.1 (some true), Or.inr (Or.inr rfl),
    explicit_mappings_inverse.2 "no" (Or.inr (Or.inr rfl))⟩

/-- C4 as amended: on the non-delete path, after the flush the podcast holds
the submitted values: title, subtitle, author name and email, and the four
details fields verbatim; the slug as returned by the get_available_slug
helper on the submitted slug; the description as returned by the
clean_admin_xhtml helper on the submitted text; and the explicit flag as the
parsed submitted choice. -/
theorem save_persists_fields (p0 : Podcast)
    (slug title subtitle author_name author_email description : String)
    (details : PodcastDetails)
    (gas : String → Podcast → String) (cax : String → String) :
    (save p0 slug title subtitle author_name author_email description details
        none gas cax).podcast.slug = gas slug p0 ∧
    (save p0 slug title subtitle author_name author_email description details
        none gas cax).podcast.title = title ∧
    (save p0 slug title subtitle author_name author_email description details
        none gas cax).podcast.subtitle = subtitle ∧
    (save p0 slug title subtitle author_name author_email description details
        none gas cax).podcast.author = some ⟨author_name, author_email⟩ ∧
    (save p0 slug title subtitle author_name author_email description details
        none gas cax).podcast.description = cax description ∧
    (save p0 slug title subtitle author_name author_email description details
        none gas cax).podcast.copyright = details.copyright ∧
    (save p0 slug title subtitle author_name author_email description details
        none gas cax).podcast.category = details.category ∧
    (save p0 slug title subtitle author_name author_email description details
        none gas cax).podcast.itunes_url = details.itunes_url ∧
    (save p0 slug title subtitle author_name author_email description details
        none gas cax).podcast.feedburner_url = details.feedburner_url ∧
    (save p0 slug title subtitle author_name author_email description details
        none gas cax).podcast.explicit = explicit_parse details.explicit ∧
    (save p0 slug title subtitle author_name author_email description details
        none gas cax).added = true ∧
    (save p0 slug title subtitle author_name author_email description details
        none gas cax).flushed = true := by
  simp [save, strTruthy]

/-- A concrete podcast row with every column blank, used as a fetched row in
witnesses and counterexamples. -/
def examplePodcast : Podcast :=
  { id := none, slug := "", title := "", subtitle := "", author := none,
    description := "", copyright := "", category := "", itunes_url := "",
    feedburner_url := "", explicit := none }

/-- Concrete validated details, used in witnesses and counterexamples. -/
def exampleDetails : PodcastDetails :=
  { explicit := "no", category := "Technology", copyright := "2010",
    itunes_url := "", feedburner_url := "" }

/-- A concrete stand-in for `helpers.clean_admin_xhtml`, which is repository
code not under src.  That helper sanitizes submitted XHTML, so it is not the
identity; here it strips a script tag from one concrete input, enough to
exhibit the divergence. -/
def exampleSanitizer (s : String) : String :=
  if s = "<p>hi</p><script>x</script>" then "<p>hi</p>" else s

/-- C4 counterexample: the code stores
`helpers.clean_admin_xhtml(description)`, not the submitted description, so
with any non-identity sanitizer the stored description differs from the
submitted form value. -/
theorem save_description_not_verbatim :
    (save examplePodcast "shows" "Title" "Sub" "Ann" "ann@example.com"
        "<p>hi</p><script>x</script>" exampleDetails none
        (fun s _ => s) exampleSanitizer).podcast.description ≠
      "<p>hi</p><script>x</script>" := by
  decide

/-- C5: on a truthy delete parameter the fetched row is deleted, the session
flushed, the request redirected to index, and the podcast object's attributes
are all left untouched (no assignment below the delete branch runs, since
redirect raises). -/
theorem save_delete_path (p0 : Podcast)
    (slug title subtitle author_name author_email description : String)
    (details : PodcastDetails) (delete : Option String)
    (gas : String → Podcast → String) (cax : String → String)
    (h : strTruthy delete = true) :
    (save p0 slug title subtitle author_name author_email description details
        delete gas cax).deletedRow = true ∧
    (save p0 slug title subtitle author_name author_email description details
        delete gas cax).flushed = true ∧
    (save p0 slug title subtitle author_name author_email description details
        delete gas cax).redirect = .index ∧
    (save p0 slug title subtitle author_name author_email description details
        delete gas cax).podcast = p0 ∧
    (save p0 slug title subtitle author_name author_email description details
        delete gas cax).added = false := by
  simp [save, h]

/-- Witness for C5: deleting a concrete podcast. -/
theorem save_delete_path_witness :
    strTruthy (some "1") = true ∧
    ((save examplePodcast "shows" "Title" "Sub" "Ann" "ann@example.com" "d"
        exampleDetails (some "1") (fun s _ => s) (fun s => s)).deletedRow = true ∧
     (save examplePodcast "shows" "Title" "Sub" "Ann" "ann@example.com" "d"
        exampleDetails (some "1") (fun s _ => s) (fun s => s)).flushed = true ∧
     (save examplePodcast "shows" "Title" "Sub" "Ann" "ann@example.com" "d"
        exampleDetails (some "1") (fun s _ => s) (fun s => s)).redirect = .index ∧
     (save examplePodcast "shows" "Title" "Sub" "Ann" "ann@example.com" "d"
        exampleDetails (some "1") (fun s _ => s) (fun s => s)).podcast = examplePodcast ∧
     (save examplePodcast "shows" "Title" "Sub" "Ann" "ann@example.com" "d"
        exampleDetails (some "1") (fun s _ => s) (fun s => s)).added = false) :=
  ⟨rfl, save_delete_path examplePodcast "shows" "Title" "Sub" "Ann"
    "ann@example.com" "d" exampleDetails (some "1") (fun s _ => s)
    (fun s => s) rfl⟩

/-- When both specifics keys are present, save_engine_params raises nothing
and its effect is exactly the two normalized writes, in program order. -/
theorem save_engine_params_eq (d specifics : Dict) (p r : PyVal)
    (hp : specifics "path" = some p)
    (hr : specifics "rtmp_server_uri" = some r) :
    FTPStorageForm.save_engine_params d specifics =
      ⟨dictUpd (dictUpd d "path" (orNone p)) "rtmp_server_uri" (orNone r),
       false⟩ := by
  simp only [FTPStorageForm.save_engine_params, hp, hr]

/-- Pointwise characterization of the effect of FTPStorageForm.display on the
'specifics' sub-dict: present entries are kept, the keys 'path' and
'rtmp_server_uri' are filled in from engine._data when absent, and no other
key is touched. -/
theorem display_apply (d s0 : Dict) (k : String) :
    FTPStorageForm.display d (some s0) k =
      if (s0 k).isSome = true then s0 k
      else if k = "path" ∨ k = "rtmp_server_uri" then some (dictGet d k)
      else none := by
  by_cases hk1 : k = "path"
  · subst hk1
    rcases hp : s0 "path" with _ | vp <;>
      rcases hr : s0 "rtmp_server_uri" with _ | vr <;>
        simp [FTPStorageForm.display, dictSetdefault, dictUpd, hp, hr]
  · by_cases hk2 : k = "rtmp_server_uri"
    · subst hk2
      rcases hp : s0 "path" with _ | vp <;>
        rcases hr : s0 "rtmp_server_uri" with _ | vr <;>
          simp [FTPStorageForm.display, dictSetdefault, dictUpd, hp, hr]
    · rcases hp : s0 "path" with _ | vp <;>
        rcases hr : s0 "rtmp_server_uri" with _ | vr <;>
          simp [FTPStorageForm.display, dictSetdefault, dictUpd, hp, hr,
            hk1, hk2] <;>
          (rcases hsk : s0 k with _ | vk <;> simp [hsk])

/-- C6: when both keys are present in the validated specifics,
save_engine_params writes exactly the keys 'path' and 'rtmp_server_uri' of
engine._data, each set to the corresponding specifics value with falsy values
normalized to None, and every other key of engine._data keeps its previous
value. -/
theorem save_engine_params_exact (d specifics : Dict) (p r : PyVal)
    (k : String) (hp : specifics "path" = some p)
    (hr : specifics "rtmp_server_uri" = some r) :
    (FTPStorageForm.save_engine_params d specifics).raised = false ∧
    (FTPStorageForm.save_engine_params d specifics).data "path"
      = some (orNone p) ∧
    (FTPStorageForm.save_engine_params d specifics).data "rtmp_server_uri"
      = some (orNone r) ∧
    (k ≠ "path" → k ≠ "rtmp_server_uri" →
      (FTPStorageForm.save_engine_params d specifics).data k = d k) := by
  rw [save_engine_params_eq d specifics p r hp hr]
  refine ⟨rfl, ?_, ?_, fun h1 h2 => ?_⟩
  · simp [dictUpd]
  · simp [dictUpd]
  · simp [dictUpd, h1, h2]

/-- A concrete engine._data dict used in witnesses: one unrelated key. -/
def exEngineData : Dict := fun k =>
  if k = "server" then some (.pyStr "ftp.example.com") else none

/-- Concrete validated specifics used in witnesses: an empty (falsy) path and
a non-empty RTMP URI. -/
def exSpecifics : Dict := fun k =>
  if k = "path" then some (.pyStr "") else
  if k = "rtmp_server_uri" then some (.pyStr "rtmp://media.example.com")
  else none

/-- Witness for C6: saving concrete specifics normalizes the empty path to
None, stores the RTMP URI, and leaves the 'server' key unchanged. -/
theorem save_engine_params_exact_witness :
    exSpecifics "path" = some (.pyStr "") ∧
    exSpecifics "rtmp_server_uri" = some (.pyStr "rtmp://media.example.com") ∧
    ((FTPStorageForm.save_engine_params exEngineData exSpecifics).raised
        = false ∧
     (FTPStorageForm.save_engine_params exEngineData exSpecifics).data "path"
        = some (orNone (.pyStr "")) ∧
     (FTPStorageForm.save_engine_params exEngineData exSpecifics).data
        "rtmp_server_uri" = some (orNone (.pyStr "rtmp://media.example.com")) ∧
     (("server" : String) ≠ "path" → ("server" : String) ≠ "rtmp_server_uri" →
       (FTPStorageForm.save_engine_params exEngineData exSpecifics).data
          "server" = exEngineData "server")) :=
  ⟨rfl, rfl, save_engine_params_exact exEngineData exSpecifics (.pyStr "")
    (.pyStr "rtmp://media.example.com") "server" rfl rfl⟩

/-- C7: after save_engine_params stores the normalized values, a display call
on a value whose 'specifics' dict lacks the keys 'path' and 'rtmp_server_uri'
populates both keys with exactly the values just stored in engine._data. -/
theorem save_then_display_roundtrip (d specifics s0 : Dict) (p r : PyVal)
    (hp : specifics "path" = some p)
    (hr : specifics "rtmp_server_uri" = some r)
    (h0p : s0 "path" = none) (h0r : s0 "rtmp_server_uri" = none) :
    FTPStorageForm.display
        (FTPStorageForm.save_engine_params d specifics).data (some s0) "path"
      = (FTPStorageForm.save_engine_params d specifics).data "path" ∧
    FTPStorageForm.display
        (FTPStorageForm.save_engine_params d specifics).data (some s0)
        "rtmp_server_uri"
      = (FTPStorageForm.save_engine_params d specifics).data
          "rtmp_server_uri" ∧
    (FTPStorageForm.save_engine_params d specifics).data "path"
      = some (orNone p) ∧
    (FTPStorageForm.save_engine_params d specifics).data "rtmp_server_uri"
      = some (orNone r) := by
  rw [save_engine_params_eq d specifics p r hp hr]
  refine ⟨?_, ?_, ?_, ?_⟩ <;>
    simp [display_apply, h0p, h0r, dictGet, dictUpd]

/-- Witness for C7: the roundtrip at concrete dicts, starting from an empty
'specifics' dict. -/
theorem save_then_display_roundtrip_witness :
    exSpecifics "path" = some (.pyStr "") ∧
    exSpecifics "rtmp_server_uri" = some (.pyStr "rtmp://media.example.com") ∧
    emptyDict "path" = none ∧
    emptyDict "rtmp_server_uri" = none ∧
    (FTPStorageForm.display
        (FTPStorageForm.save_engine_params exEngineData exSpecifics).data
        (some emptyDict) "path"
      = (FTPStorageForm.save_engine_params exEngineData exSpecifics).data
          "path" ∧
     FTPStorageForm.display
        (FTPStorageForm.save_engine_params exEngineData exSpecifics).data
        (some emptyDict) "rtmp_server_uri"
      = (FTPStorageForm.save_engine_params exEngineData exSpecifics).data
          "rtmp_server_uri" ∧
     (FTPStorageForm.save_engine_params exEngineData exSpecifics).data "path"
      = some (orNone (.pyStr "")) ∧
     (FTPStorageForm.save_engine_params exEngineData exSpecifics).data
        "rtmp_server_uri"
      = some (orNone (.pyStr "rtmp://media.example.com"))) :=
  ⟨rfl, rfl, rfl, rfl,
    save_then_display_roundtrip exEngineData exSpecifics emptyDict
      (.pyStr "") (.pyStr "rtmp://media.example.com") rfl rfl rfl rfl⟩

/-- C10: FTPStorageForm.display never overwrites entries already present in
the caller's 'specifics' dict; 'path' and 'rtmp_server_uri' are copied in
from engine._data only when absent, and every other key is untouched. -/
theorem display_setdefault_only (d s0 : Dict) (k : String) :
    FTPStorageForm.display d (some s0) k =
      if (s0 k).isSome = true then s0 k
      else if k = "path" ∨ k = "rtmp_server_uri" then some (dictGet d k)
      else none :=
  display_apply d s0 k

end Mediacore
